import Mathlib

/-!
Shallow embedding of the valuation and return-aggregation engine of the
Finance-App repository (src/app.py), together with theorems settling the
frozen claims about it.

Numbers are modelled over the reals. Python float results that are NaN
(for this program: the pandas elementwise division invested / post_money
when post_money = 0, the mean of an empty series, and the np.nan sentinel
returned by irr) are modelled as `none` in `Option ℝ`; ordinary finite
results are `some`. Pandas column sums skip NaN entries (skipna default),
which is modelled by summing `Option.getD · 0`.
-/

noncomputable section

/-- The irr helper of app.py (lines 58-61): returns the np.nan sentinel
(modelled as none) when moic <= 0 or exit_horizon <= 0, otherwise
moic ** (1 / exit_horizon) - 1. -/
def irr (moic exit_horizon : ℝ) : Option ℝ :=
  if moic ≤ 0 ∨ exit_horizon ≤ 0 then none
  else some (moic ^ ((1 : ℝ) / exit_horizon) - 1)

/-- A deal row as stored in the deals table and read back into the
dataframe (app.py lines 219-233). Only the fields the engine consumes
are modelled; the scenario label column is `scenario_label`. -/
structure Deal where
  invested : ℝ
  entry_valuation : ℝ
  entry_year : ℝ
  exit_year : ℝ
  base_factor : ℝ
  downside_factor : ℝ
  upside_factor : ℝ
  scenario_label : String

/-- The factor selection lambda of app.py line 238:
base_factor if scenario == "Base" else downside_factor if
scenario == "Downside" else upside_factor. -/
def selectFactor (d : Deal) : ℝ :=
  if d.scenario_label = "Base" then d.base_factor
  else if d.scenario_label = "Downside" then d.downside_factor
  else d.upside_factor

/-- Post Money column (app.py line 236): entry_valuation + invested. -/
def postMoney (d : Deal) : ℝ :=
  d.entry_valuation + d.invested

/-- Holding Period column (app.py line 235): exit_year - entry_year. -/
def holdingPeriod (d : Deal) : ℝ :=
  d.exit_year - d.entry_year

/-- Ownership % column (app.py line 237): (invested / Post Money) * 100.
With Post Money = 0 the pandas float division yields a non-finite value
(NaN for the reachable 0 / 0 case), modelled as none. -/
def ownershipPct (d : Deal) : Option ℝ :=
  if postMoney d = 0 then none
  else some (d.invested / postMoney d * 100)

/-- Exit Valuation column (app.py line 239): Post Money * factor. -/
def exitValuation (d : Deal) : ℝ :=
  postMoney d * selectFactor d

/-- Exit Value column (app.py line 239):
(Post Money * factor) * (Ownership % / 100); NaN propagates from the
ownership column. -/
def exitValue (d : Deal) : Option ℝ :=
  (ownershipPct d).map (fun o => exitValuation d * (o / 100))

/-- df.invested.sum() (app.py line 380). -/
def totalInvested (ds : List Deal) : ℝ :=
  (ds.map Deal.invested).sum

/-- df["Exit Value"].sum() (app.py line 380): pandas sums skip NaN
entries, so a none contributes 0. -/
def totalExitValue (ds : List Deal) : ℝ :=
  (ds.map (fun d => (exitValue d).getD 0)).sum

/-- moic of the Dashboard tab (app.py line 381):
exit_val / invested if invested > 0 else 0. -/
def grossMoic (ds : List Deal) : ℝ :=
  if 0 < totalInvested ds then totalExitValue ds / totalInvested ds else 0

/-- df["Holding Period"].mean() (app.py line 382); the mean of an empty
series is NaN, modelled as none. -/
def avgHoldingPeriod (ds : List Deal) : Option ℝ :=
  match ds with
  | [] => none
  | _ :: _ => some ((ds.map holdingPeriod).sum / ds.length)

/-- fund_irr of the Dashboard tab (app.py line 383):
irr(moic, avg_holding_period) if avg_holding_period > 0 else np.nan.
A NaN average holding period fails the > 0 comparison. -/
def fundIrr (ds : List Deal) : Option ℝ :=
  match avgHoldingPeriod ds with
  | none => none
  | some h => if 0 < h then irr (grossMoic ds) h else none

/-- The fund-level assumptions consumed by the fee and scenario
computations (app.py line 116 lists the defaults). Only the fields those
computations read are modelled. -/
structure Assumptions where
  investment_period : ℝ
  exit_horizon : ℝ
  target_fund : ℝ
  management_fee : ℝ
  admin_cost : ℝ
  t2_exp_moic : ℝ
  t3_exp_moic : ℝ
  tier1_carry : ℝ
  tier2_carry : ℝ
  tier3_carry : ℝ

/-- admin_cost_val of the Aggregated Exits tab (app.py line 567):
(admin_cost / 100) * target_fund. -/
def adminCostVal (A : Assumptions) : ℝ :=
  A.admin_cost / 100 * A.target_fund

/-- total_fees of the Aggregated Exits tab (app.py line 568):
(admin_cost_val * investment_period) + admin_cost_val. -/
def totalFees (A : Assumptions) : ℝ :=
  adminCostVal A * A.investment_period + adminCostVal A

/-- admin_cost_total of the Admin Fee tab (app.py line 608):
(management_fee / 100) * target_fund. -/
def adminCostTotal (A : Assumptions) : ℝ :=
  A.management_fee / 100 * A.target_fund

/-- operations_fee of the Admin Fee tab (app.py line 609). -/
def operationsFee (A : Assumptions) : ℝ :=
  adminCostTotal A

/-- management_fee_total of the Admin Fee tab (app.py line 610):
admin_cost_total * investment_period. -/
def managementFeeTotal (A : Assumptions) : ℝ :=
  adminCostTotal A * A.investment_period

/-- total_iv_costs of the Admin Fee tab (app.py line 611):
admin_cost_total + operations_fee + management_fee_total. -/
def totalIvCosts (A : Assumptions) : ℝ :=
  adminCostTotal A + operationsFee A + managementFeeTotal A

/-- carry_pct selection of the Aggregated Exits tab (app.py line 575):
tier1_carry if g_moic < t2_exp_moic else (tier2_carry if
g_moic < t3_exp_moic else tier3_carry). -/
def carryPct (A : Assumptions) (gMoic : ℝ) : ℝ :=
  if gMoic < A.t2_exp_moic then A.tier1_carry
  else if gMoic < A.t3_exp_moic then A.tier2_carry
  else A.tier3_carry

/-- One row of the scenario loop of the Aggregated Exits tab
(app.py line 579). -/
structure ScenarioRow where
  label : String
  gev : ℝ
  pbc : ℝ
  gMoic : ℝ
  cp : ℝ
  ca : ℝ
  tf : ℝ
  net : ℝ
  rMoic : ℝ
  irrVal : Option ℝ

/-- The body of the scenario loop (app.py lines 572-579) for one
(label, multiplier) pair, given total_invested and the base gross exit
value. -/
def scenarioRow (A : Assumptions) (ti baseGev : ℝ) (p : String × ℝ) : ScenarioRow :=
  let gev := baseGev * p.2
  let pbc := gev - ti
  let gMoic := if 0 < ti then gev / ti else 0
  let cp := carryPct A gMoic
  let ca := max 0 (pbc * (cp / 100))
  let net := gev - ca - totalFees A
  let rMoic := if 0 < ti then net / ti else 0
  { label := p.1, gev := gev, pbc := pbc, gMoic := gMoic, cp := cp,
    ca := ca, tf := totalFees A, net := net, rMoic := rMoic,
    irrVal := irr rMoic A.exit_horizon }

/-- The scenario loop of the Aggregated Exits tab (app.py lines 571-579):
one row per (label, multiplier) pair, in the order of the list. -/
def runScenarios (A : Assumptions) (ti baseGev : ℝ) (scenarioSet : List (String × ℝ)) :
    List ScenarioRow :=
  scenarioSet.map (scenarioRow A ti baseGev)

/-- The worked-example deal of the spec: invested 100,000, entry
valuation 400,000, scenario Base with base factor 3.0, holding period
5 years. -/
def exampleDeal : Deal :=
  { invested := 100000, entry_valuation := 400000,
    entry_year := 2024, exit_year := 2029,
    base_factor := 3.0, downside_factor := 1.5, upside_factor := 5.0,
    scenario_label := "Base" }

/-- The same deal but held for 10 years instead of 5. -/
def longDeal : Deal :=
  { invested := 100000, entry_valuation := 400000,
    entry_year := 2020, exit_year := 2030,
    base_factor := 3.0, downside_factor := 1.5, upside_factor := 5.0,
    scenario_label := "Base" }

/-- A deal carrying an unrecognized scenario label. -/
def bogusDeal : Deal :=
  { invested := 100000, entry_valuation := 400000,
    entry_year := 2024, exit_year := 2029,
    base_factor := 3.0, downside_factor := 1.5, upside_factor := 5.0,
    scenario_label := "Sideways" }

/-- A deal with zero invested and zero entry valuation, so post-money 0. -/
def zeroDeal : Deal :=
  { invested := 0, entry_valuation := 0,
    entry_year := 2024, exit_year := 2029,
    base_factor := 3.0, downside_factor := 1.5, upside_factor := 5.0,
    scenario_label := "Base" }

/-- Assumptions where the management fee and admin cost percentages
differ: admin cost 2 percent, management fee 3 percent, target fund
10,000,000, investment period 10. -/
def feeAssumptions : Assumptions :=
  { investment_period := 10, exit_horizon := 5, target_fund := 10000000,
    management_fee := 3, admin_cost := 2,
    t2_exp_moic := 1.5, t3_exp_moic := 1.25,
    tier1_carry := 25, tier2_carry := 25, tier3_carry := 25 }

/-- Assumptions with t3_exp_moic below t2_exp_moic (as in the in-code
defaults t2 = 1.5, t3 = 1.25) and pairwise distinct carry percentages. -/
def tierAssumptions : Assumptions :=
  { investment_period := 10, exit_horizon := 5, target_fund := 10000000,
    management_fee := 2, admin_cost := 1.5,
    t2_exp_moic := 2, t3_exp_moic := 1.5,
    tier1_carry := 20, tier2_carry := 30, tier3_carry := 40 }

/-- C5: irr returns the not-available sentinel exactly on the guarded
inputs (moic <= 0 or years <= 0), and otherwise the ordinary value
moic ^ (1 / years) - 1; the sentinel is never an ordinary number. -/
theorem irr_guard_and_value (moic years : ℝ) :
    (moic ≤ 0 ∨ years ≤ 0 → irr moic years = none) ∧
    (0 < moic → 0 < years → irr moic years = some (moic ^ ((1 : ℝ) / years) - 1)) := by
  constructor
  · intro h
    simp [irr, h]
  · intro h1 h2
    have hg : ¬ (moic ≤ 0 ∨ years ≤ 0) := by
      push_neg
      exact ⟨h1, h2⟩
    simp [irr, hg]

/-- Witness for C5 at moic = -1 (guarded) and moic = 3, years = 5. -/
theorem irr_guard_and_value_witness :
    irr (-1) 5 = none ∧ irr 3 5 = some ((3 : ℝ) ^ ((1 : ℝ) / 5) - 1) :=
  ⟨(irr_guard_and_value (-1) 5).1 (Or.inl (by norm_num)),
   (irr_guard_and_value 3 5).2 (by norm_num) (by norm_num)⟩

/-- C9: on the empty portfolio the aggregation yields total invested 0,
total exit value 0, gross MOIC the defined number 0 (not the sentinel),
and a fund IRR equal to the not-available sentinel; moreover irr itself
maps moic = 0 to the sentinel for every horizon, since 0 fails its
moic > 0 guard. -/
theorem empty_portfolio_aggregate :
    totalInvested [] = 0 ∧ totalExitValue [] = 0 ∧ grossMoic [] = 0 ∧
    fundIrr [] = none ∧ ∀ h : ℝ, irr 0 h = none := by
  refine ⟨rfl, rfl, ?_, rfl, ?_⟩
  · simp [grossMoic, totalInvested]
  · intro h
    simp [irr]

/-- C6 counterexample: with t2_exp_moic = 2 above t3_exp_moic = 1.5 and
tier2_carry = 30 distinct from tier3_carry = 40, a gross MOIC exactly
equal to t2_exp_moic selects tier3_carry, not tier2_carry. -/
theorem carry_at_t2_not_tier2 :
    carryPct tierAssumptions tierAssumptions.t2_exp_moic = tierAssumptions.tier3_carry ∧
    carryPct tierAssumptions tierAssumptions.t2_exp_moic ≠ tierAssumptions.tier2_carry := by
  constructor <;> norm_num [carryPct, tierAssumptions]

/-- C6 amended: the tier selection uses strict lower bounds exactly as
written, so a gross MOIC equal to t2_exp_moic never takes tier1_carry:
it takes tier2_carry when t2_exp_moic < t3_exp_moic and tier3_carry
otherwise. -/
theorem carry_at_t2_boundary (A : Assumptions) :
    carryPct A A.t2_exp_moic =
      if A.t2_exp_moic < A.t3_exp_moic then A.tier2_carry else A.tier3_carry := by
  by_cases h : A.t2_exp_moic < A.t3_exp_moic <;>
    simp [carryPct, lt_irrefl, h]

/-- C2 counterexample: with admin cost 2 percent, management fee
3 percent, target fund 10,000,000 and investment period 10, the Admin
Fee tab base is 300,000, not admin_cost percent of the target fund
(200,000), and its total 3,600,000 disagrees with the Aggregated Exits
total_fees 2,200,000. -/
theorem fee_breakdown_mismatch :
    adminCostTotal feeAssumptions ≠
      feeAssumptions.admin_cost / 100 * feeAssumptions.target_fund ∧
    totalIvCosts feeAssumptions ≠ totalFees feeAssumptions := by
  constructor <;>
    norm_num [adminCostTotal, totalIvCosts, operationsFee, managementFeeTotal,
      totalFees, adminCostVal, feeAssumptions]

/-- C2 amended: the standalone fee breakdown takes its base from the
management fee percentage, not the admin cost percentage; the
operations fee equals that base, the management fee component is the
base times the investment period, and the total is the sum of the
three, i.e. base * (2 + investment_period) — while the scenario engine
uses total_fees = admin_cost percent of target fund times
(1 + investment_period), so the two agree only accidentally. -/
theorem fee_breakdown_formulas (A : Assumptions) :
    adminCostTotal A = A.management_fee / 100 * A.target_fund ∧
    operationsFee A = adminCostTotal A ∧
    managementFeeTotal A = adminCostTotal A * A.investment_period ∧
    totalIvCosts A = A.management_fee / 100 * A.target_fund * (2 + A.investment_period) ∧
    totalFees A = A.admin_cost / 100 * A.target_fund * (1 + A.investment_period) := by
  refine ⟨rfl, rfl, rfl, ?_, ?_⟩ <;>
    simp [totalIvCosts, operationsFee, managementFeeTotal, adminCostTotal,
      totalFees, adminCostVal] <;> ring

/-- C7: the valuation uses the post-money variant — exit valuation is
(entry_valuation + invested) * factor for every deal — and on the
worked example (invested 100,000, entry valuation 400,000, Base factor
3.0) it yields post-money 500,000, ownership 20 percent, exit valuation
1,500,000 and exit value 300,000. -/
theorem value_deal_example :
    (∀ d : Deal, exitValuation d = (d.entry_valuation + d.invested) * selectFactor d) ∧
    postMoney exampleDeal = 500000 ∧
    ownershipPct exampleDeal = some 20 ∧
    exitValuation exampleDeal = 1500000 ∧
    exitValue exampleDeal = some 300000 := by
  refine ⟨fun d => rfl, ?_, ?_, ?_, ?_⟩ <;>
    norm_num [postMoney, ownershipPct, exitValuation, exitValue, selectFactor,
      exampleDeal]

/-- C10: whenever post-money is nonzero, the ownership percentage and
the post-money valuation cancel and the exit value equals
invested * factor, independent of the entry valuation. -/
theorem exitValue_cancels (d : Deal) (h : postMoney d ≠ 0) :
    exitValue d = some (d.invested * selectFactor d) := by
  simp only [exitValue, ownershipPct, if_neg h, Option.map_some', exitValuation]
  congr 1
  field_simp
  ring

/-- Witness for C10 on the worked example deal. -/
theorem exitValue_cancels_witness :
    exitValue exampleDeal = some (exampleDeal.invested * selectFactor exampleDeal) :=
  exitValue_cancels exampleDeal (by norm_num [postMoney, exampleDeal])

/-- C4 counterexample: the zero-post-money deal gets a NaN ownership
percentage and a NaN exit value (modelled none), not the value 0 the
claim requires. -/
theorem zero_post_money_not_zero :
    postMoney zeroDeal = 0 ∧
    ownershipPct zeroDeal ≠ some 0 ∧
    exitValue zeroDeal ≠ some 0 := by
  refine ⟨?_, ?_, ?_⟩ <;>
    simp [postMoney, ownershipPct, exitValue, zeroDeal]

/-- C4 amended: a nonnegative deal with post-money 0 yields NaN (none)
ownership and exit value — no exception — and because the portfolio
sums skip NaN and its invested amount is forced to 0, prepending it to
any portfolio changes neither the total exit value nor the total
invested. -/
theorem zero_post_money_nan (d : Deal) (h0 : postMoney d = 0)
    (hi : 0 ≤ d.invested) (he : 0 ≤ d.entry_valuation) :
    ownershipPct d = none ∧ exitValue d = none ∧
    ∀ ds : List Deal,
      totalExitValue (d :: ds) = totalExitValue ds ∧
      totalInvested (d :: ds) = totalInvested ds := by
  have hinv : d.invested = 0 := by
    have := h0
    unfold postMoney at this
    linarith
  refine ⟨?_, ?_, ?_⟩
  · simp [ownershipPct, h0]
  · simp [exitValue, ownershipPct, h0]
  · intro ds
    constructor
    · simp [totalExitValue, exitValue, ownershipPct, h0]
    · simp [totalInvested, hinv]

/-- Witness for C4 amended at the zero deal with the empty tail. -/
theorem zero_post_money_nan_witness :
    ownershipPct zeroDeal = none ∧ totalExitValue [zeroDeal] = totalExitValue [] :=
  ⟨(zero_post_money_nan zeroDeal (by norm_num [postMoney, zeroDeal])
      (by norm_num [zeroDeal]) (by norm_num [zeroDeal])).1,
   ((zero_post_money_nan zeroDeal (by norm_num [postMoney, zeroDeal])
      (by norm_num [zeroDeal]) (by norm_num [zeroDeal])).2.2 []).1⟩

/-- C3 counterexample: a deal whose scenario label is the unrecognized
string Sideways is not rejected: the factor selection silently takes
the upside factor (5, distinct from the base factor 3) and the
valuation completes normally with exit value 500,000. -/
theorem unrecognized_label_not_rejected :
    bogusDeal.scenario_label ≠ "Base" ∧
    bogusDeal.scenario_label ≠ "Downside" ∧
    bogusDeal.scenario_label ≠ "Upside" ∧
    selectFactor bogusDeal = bogusDeal.upside_factor ∧
    bogusDeal.upside_factor ≠ bogusDeal.base_factor ∧
    exitValue bogusDeal = some 500000 := by
  have hb : ("Sideways" : String) ≠ "Base" := by decide
  have hd : ("Sideways" : String) ≠ "Downside" := by decide
  have hu : ("Sideways" : String) ≠ "Upside" := by decide
  refine ⟨hb, hd, hu, ?_, ?_, ?_⟩ <;>
    norm_num [selectFactor, exitValue, exitValuation, ownershipPct, postMoney,
      bogusDeal, hb, hd]

/-- C3 amended: any scenario label other than Base and Downside —
including every unrecognized one — silently selects the upside factor;
no error value exists in the computation. -/
theorem unrecognized_label_defaults_upside (d : Deal)
    (h1 : d.scenario_label ≠ "Base") (h2 : d.scenario_label ≠ "Downside") :
    selectFactor d = d.upside_factor := by
  simp [selectFactor, h1, h2]

/-- Witness for C3 amended at the Sideways-labelled deal. -/
theorem unrecognized_label_defaults_upside_witness :
    selectFactor bogusDeal = bogusDeal.upside_factor :=
  unrecognized_label_defaults_upside bogusDeal (by decide) (by decide)

/-- C8: the scenario loop emits exactly one row per (label, multiplier)
pair, in the order of the input list, and when the multipliers are
strictly increasing and the base total exit value is positive, the gev
values of successive rows are strictly increasing. -/
theorem run_scenarios_rows (A : Assumptions) (ti tev : ℝ)
    (scenarioSet : List (String × ℝ)) :
    (runScenarios A ti tev scenarioSet).length = scenarioSet.length ∧
    (runScenarios A ti tev scenarioSet).map ScenarioRow.label =
      scenarioSet.map Prod.fst ∧
    (0 < tev → (scenarioSet.map Prod.snd).Pairwise (· < ·) →
      ((runScenarios A ti tev scenarioSet).map ScenarioRow.gev).Pairwise (· < ·)) := by
  refine ⟨by simp [runScenarios], ?_, ?_⟩
  · simp only [runScenarios, List.map_map]
    rfl
  · intro hpos hmono
    have hmap : (runScenarios A ti tev scenarioSet).map ScenarioRow.gev =
        scenarioSet.map (fun p => tev * p.2) := by
      simp only [runScenarios, List.map_map]
      rfl
    rw [hmap, List.pairwise_map]
    rw [List.pairwise_map] at hmono
    exact hmono.imp (fun h => mul_lt_mul_of_pos_left h hpos)

/-- Witness for C8 on the three in-code scenarios with multipliers
1.0, 1.5, 2.0 and a positive base exit value. -/
theorem run_scenarios_rows_witness :
    ((runScenarios feeAssumptions 100000 300000
        [("Base", 1), ("Upside", 1.5), ("High Growth", 2)]).map
      ScenarioRow.gev).Pairwise (· < ·) :=
  (run_scenarios_rows feeAssumptions 100000 300000
      [("Base", 1), ("Upside", 1.5), ("High Growth", 2)]).2.2
    (by norm_num)
    (by simp [List.pairwise_cons]; norm_num)

/-- C1 counterexample: a single-deal portfolio with gross MOIC 3 whose
deal is held for 10 years has fund IRR 3 ^ (1/10) - 1, not
irr(gross_moic, 5) = 3 ^ (1/5) - 1 demanded by the claim for exit
horizon 5: the code feeds the average holding period, not the exit
horizon, to irr. -/
theorem fund_irr_not_exit_horizon :
    grossMoic [longDeal] = 3 ∧
    fundIrr [longDeal] ≠ irr (grossMoic [longDeal]) 5 := by
  have hev : exitValue longDeal = some 300000 := by
    norm_num [exitValue, exitValuation, ownershipPct, postMoney, selectFactor,
      longDeal]
  have hmoic : grossMoic [longDeal] = 3 := by
    simp only [grossMoic, totalInvested, totalExitValue, List.map_cons,
      List.map_nil, List.sum_cons, List.sum_nil, hev, Option.getD_some]
    norm_num [longDeal]
  have havg : avgHoldingPeriod [longDeal] = some 10 := by
    norm_num [avgHoldingPeriod, holdingPeriod, longDeal]
  have hfi : fundIrr [longDeal] = some ((3 : ℝ) ^ ((1 : ℝ) / 10) - 1) := by
    norm_num [fundIrr, havg, hmoic, irr]
  have hirr5 : irr (grossMoic [longDeal]) 5 = some ((3 : ℝ) ^ ((1 : ℝ) / 5) - 1) := by
    norm_num [hmoic, irr]
  refine ⟨hmoic, ?_⟩
  rw [hfi, hirr5]
  intro hcontra
  have h1 : (3 : ℝ) ^ ((1 : ℝ) / 10) - 1 = (3 : ℝ) ^ ((1 : ℝ) / 5) - 1 :=
    Option.some.inj hcontra
  have h2 : (3 : ℝ) ^ ((1 : ℝ) / 10) < (3 : ℝ) ^ ((1 : ℝ) / 5) := by
    apply (Real.rpow_lt_rpow_left_iff (by norm_num : (1 : ℝ) < 3)).mpr
    norm_num
  linarith

/-- C1 amended: the Dashboard fund IRR is irr(gross_moic, avg holding
period); for a single-deal portfolio with positive holding period the
years argument is that deal's holding period, and on the worked example
(gross MOIC 3, holding period 5) the fund IRR is 3 ^ (1/5) - 1. -/
theorem fund_irr_from_avg_holding :
    (∀ d : Deal, 0 < holdingPeriod d →
      fundIrr [d] = irr (grossMoic [d]) (holdingPeriod d)) ∧
    fundIrr [exampleDeal] = some ((3 : ℝ) ^ ((1 : ℝ) / 5) - 1) := by
  have hgen : ∀ d : Deal, 0 < holdingPeriod d →
      fundIrr [d] = irr (grossMoic [d]) (holdingPeriod d) := by
    intro d h
    have havg : avgHoldingPeriod [d] = some (holdingPeriod d) := by
      simp [avgHoldingPeriod]
    simp [fundIrr, havg, h]
  refine ⟨hgen, ?_⟩
  have hev : exitValue exampleDeal = some 300000 := by
    norm_num [exitValue, exitValuation, ownershipPct, postMoney, selectFactor,
      exampleDeal]
  have hmoic : grossMoic [exampleDeal] = 3 := by
    simp only [grossMoic, totalInvested, totalExitValue, List.map_cons,
      List.map_nil, List.sum_cons, List.sum_nil, hev, Option.getD_some]
    norm_num [exampleDeal]
  have hhold : holdingPeriod exampleDeal = 5 := by
    norm_num [holdingPeriod, exampleDeal]
  rw [hgen exampleDeal (by rw [hhold]; norm_num), hmoic, hhold]
  norm_num [irr]

/-- Witness for C1 amended at the worked-example deal. -/
theorem fund_irr_from_avg_holding_witness :
    fundIrr [exampleDeal] = irr (grossMoic [exampleDeal]) (holdingPeriod exampleDeal) :=
  fund_irr_from_avg_holding.1 exampleDeal
    (by norm_num [holdingPeriod, exampleDeal])

end
